import Mathlib

/-!
Verification development for the Green Software Foundation credentials
repository: a shallow embedding of the course-completion ingestion pipeline
(`src/pages/api/webhooks/course-completion.ts`), the notification layer
(`src/lib/resend.ts`) and the certificate generation module
(`certificatePdf`), together with theorems settling the specified
properties of badge resolution, person/award idempotent upsert,
best-effort side effects and certificate persistence.

External collaborators (the relational datastore, the headless renderer,
the email provider, the filesystem) are modelled as explicit inputs: the
datastore as an in-memory record store, and every fallible external call
as an environment-supplied result, exactly at the points where the source
performs the call.
-/

namespace GSF

/-! ## JavaScript string primitives

Executable embeddings of the JS string operations the source uses:
`trim`, `toLowerCase`, `toUpperCase`, `includes`, `replaceAll`, and
single-occurrence `replace`.  All are structural recursions over the
character list so that concrete witnesses evaluate in the kernel. -/

/-- Embedding of JS `String.prototype.trim`: drop whitespace at both ends. -/
def jsTrim (s : String) : String :=
  ⟨((s.data.dropWhile Char.isWhitespace).reverse.dropWhile Char.isWhitespace).reverse⟩

/-- Embedding of JS `String.prototype.toLowerCase` (ASCII fragment). -/
def jsToLower (s : String) : String :=
  ⟨s.data.map Char.toLower⟩

/-- Embedding of JS `String.prototype.toUpperCase` (ASCII fragment). -/
def jsToUpper (s : String) : String :=
  ⟨s.data.map Char.toUpper⟩

/-- Substring occurrence test on character lists. -/
def includesList (hay pat : List Char) : Bool :=
  match hay with
  | [] => pat.isEmpty
  | _ :: rest => pat.isPrefixOf hay || includesList rest pat

/-- Embedding of JS `String.prototype.includes`. -/
def jsIncludes (s sub : String) : Bool :=
  includesList s.data sub.data

/-- Fuel-indexed worker for leftmost, non-overlapping replace-all. -/
def replAllList (pat rep : List Char) : Nat → List Char → List Char
  | _, [] => []
  | 0, s => s
  | Nat.succ fuel, c :: rest =>
    if pat.isPrefixOf (c :: rest) then
      rep ++ replAllList pat rep fuel (List.drop pat.length (c :: rest))
    else
      c :: replAllList pat rep fuel rest

/-- Embedding of JS `String.prototype.replaceAll` with a string pattern
(leftmost, non-overlapping; only ever used with non-empty patterns in the
source). -/
def jsReplaceAll (s pat rep : String) : String :=
  if pat.data.isEmpty then s
  else ⟨replAllList pat.data rep.data s.data.length s.data⟩

/-- Worker replacing the first occurrence of `pat`. -/
def replFirstList (pat rep : List Char) : List Char → List Char
  | [] => []
  | c :: rest =>
    if pat.isPrefixOf (c :: rest) then
      rep ++ List.drop (pat.length - 1) rest
    else
      c :: replFirstList pat rep rest

/-- Embedding of JS `String.prototype.replace` with a string pattern
(first occurrence only; only ever used with non-empty patterns). -/
def jsReplaceFirst (s pat rep : String) : String :=
  if pat.data.isEmpty then s
  else ⟨replFirstList pat.data rep.data s.data⟩

/-! ## Webhook endpoint data model

Embedding of `src/pages/api/webhooks/course-completion.ts`. -/

/-- Alias table `COURSE_TO_BADGE_SLUG` (lines 38-49 of the endpoint),
as an association list in source order. -/
def courseToBadgeSlugTable : List (String × String) :=
  [("green-software-practitioner", "green-software-practitioner"),
   ("green software practitioner", "green-software-practitioner"),
   ("green-software-for-practitioners", "green-software-practitioner"),
   ("green software for practitioners", "green-software-practitioner"),
   ("gsp", "green-software-practitioner"),
   ("sustainable-cloud-specialist", "sustainable-cloud-specialist"),
   ("sustainable cloud specialist", "sustainable-cloud-specialist"),
   ("scs", "sustainable-cloud-specialist")]

/-- Property lookup `COURSE_TO_BADGE_SLUG[candidate]`. -/
def COURSE_TO_BADGE_SLUG (key : String) : Option String :=
  courseToBadgeSlugTable.lookup key

/-- `DEFAULT_BADGE_SLUG` (line 51). -/
def DEFAULT_BADGE_SLUG : String := "green-software-practitioner"

/-- `normalize` (lines 53-56): `undefined` and the empty string are falsy
and map to `undefined`; any other string is trimmed then lowercased. -/
def normalize : Option String → Option String
  | none => none
  | some s => if s = "" then none else some (jsToLower (jsTrim s))

/-- The candidate list of `resolveBadgeSlug` (lines 73-77):
normalized candidates with falsy entries (`undefined`, `""`) filtered out. -/
def resolveCandidates (badgeSlug courseId courseName : Option String) : List String :=
  ([normalize badgeSlug, normalize courseId, normalize courseName].filterMap id).filter
    (fun s => !(s == ""))

/-- `resolveBadgeSlug` (lines 68-85): first alias-table hit among the
candidates wins; otherwise the default badge slug is returned. -/
def resolveBadgeSlug (badgeSlug courseId courseName : Option String) : Option String :=
  match (resolveCandidates badgeSlug courseId courseName).findSome? COURSE_TO_BADGE_SLUG with
  | some slug => some slug
  | none => some DEFAULT_BADGE_SLUG

/-- The normalized email key computed at line 167:
`normalize(email) || email.toLowerCase()` (the fallback fires when
`normalize` returns `undefined` or the falsy empty string). -/
def emailKey (email : String) : String :=
  match normalize (some email) with
  | some s => if s = "" then jsToLower email else s
  | none => jsToLower email

/-- The payload fields the handler works with after shape dispatch
(lines 102-138). -/
structure Payload where
  name : String
  email : String
  badgeSlug : Option String
  courseId : Option String
  courseName : Option String
  personalizedDescription : Option String
deriving DecidableEq

/-- Lines 140-143: a truthy (present, non-empty) `courseName` overwrites
any payload-supplied description with the generated sentence. -/
def effectiveDescription (p : Payload) : Option String :=
  match p.courseName with
  | some cn =>
    if cn = "" then p.personalizedDescription
    else some ("Recognized for successfully completing the " ++ cn ++ " certification program.")
  | none => p.personalizedDescription

/-- A validated request body, in one of the two accepted shapes
(`supabaseWebhookSchema` tried first, then `directPayloadSchema`). -/
inductive RequestBody where
  | supabaseWebhook (typ tbl sch : String) (course_id : String) (course_name : Option String)
      (user_email user_name : String) (metaPersonalizedDescription : Option String)
  | direct (name email : String)
      (badgeSlug courseId courseName personalizedDescription : Option String)
deriving DecidableEq

/-- Field extraction from either accepted shape (lines 109-138). -/
def extractFields : RequestBody → Payload
  | .supabaseWebhook _ _ _ cid cname uemail uname mdesc =>
    { name := uname, email := uemail, badgeSlug := none, courseId := some cid,
      courseName := cname, personalizedDescription := mdesc }
  | .direct n e bs ci cn pd =>
    { name := n, email := e, badgeSlug := bs, courseId := ci,
      courseName := cn, personalizedDescription := pd }

/-- A person row (`people`: id, name, email). -/
structure Person where
  id : String
  name : String
  email : String
deriving DecidableEq

/-- A badge row (`badges`: id, slug, name). -/
structure Badge where
  id : String
  slug : String
  name : String
deriving DecidableEq

/-- An award row (`awards`: id, person_id, badge_id, issued_at,
personalized_description). -/
structure Award where
  id : String
  person_id : String
  badge_id : String
  issued_at : Option String
  personalized_description : Option String
deriving DecidableEq

/-- The record store visible to the handler. -/
structure DB where
  badges : List Badge
  people : List Person
  awards : List Award
deriving DecidableEq

/-- `EmailSendStatus` from `src/lib/resend.ts` (lines 28-31). -/
inductive EmailSendStatus where
  | sent
  | skipped (reason : String)
  | failed (reason : String)
deriving DecidableEq

/-- `sendAwardNotification` outcome logic (resend.ts lines 69-222):
unconfigured provider short-circuits to `skipped`; a provider error or a
thrown delivery exception maps to `failed`; otherwise `sent`. -/
def sendAwardNotification (configured : Bool) (sendError : Option String) : EmailSendStatus :=
  if !configured then
    .skipped "Resend not configured (missing API key or from address)"
  else
    match sendError with
    | some reason => .failed reason
    | none => .sent

/-- The success body assembled at lines 273-287. -/
structure OkBody where
  badgeSlug : String
  recipientEmail : String
  recipientName : String
  awardId : String
  verificationCode : String
  issuedAt : String
  personalizedDescription : Option String
  url : String
  certificateUrl : Option String
  email : EmailSendStatus
deriving DecidableEq

/-- The distinct responses the handler can produce after shape dispatch. -/
inductive WebhookResponse where
  | badRequestInvalidPayload
  | badgeUnresolved
  | badgeNotFound (slug : String)
  | personLookupFailed
  | personCreateFailed
  | awardLookupFailed
  | awardCreateFailed
  | ok (body : OkBody)
deriving DecidableEq

/-- HTTP status attached by `jsonResponse` to each outcome. -/
def WebhookResponse.statusCode : WebhookResponse → Nat
  | .badRequestInvalidPayload => 400
  | .badgeUnresolved => 400
  | .badgeNotFound _ => 404
  | .personLookupFailed => 500
  | .personCreateFailed => 500
  | .awardLookupFailed => 500
  | .awardCreateFailed => 500
  | .ok _ => 200

/-- Externally visible operations the handler performs, in order. -/
inductive Event where
  | insertPerson (p : Person)
  | insertAward (a : Award)
  | generateCertificate (recipientName issuedAt verificationCode badgeTitle : String)
  | sendEmail (toAddr recipientName credentialName verificationCode badgeUrl : String)
      (personalizedDescription certificateUrl : Option String)
deriving DecidableEq

/-- Handler result: the response, the datastore after the request, and the
external operations performed. -/
structure Outcome where
  response : WebhookResponse
  db : DB
  events : List Event
deriving DecidableEq

/-- Request-environment: fresh identifiers, the clock, the request origin,
and the outcome of every external call the handler makes (datastore
errors, the caught certificate generation result, email provider state). -/
structure Env where
  freshPersonId : String
  freshAwardId : String
  issuedAt : String
  origin : String
  personLookupOk : Bool
  personInsertOk : Bool
  awardLookupOk : Bool
  awardInsertOk : Bool
  certResult : Option String
  emailConfigured : Bool
  emailSendError : Option String
deriving DecidableEq

/-- Badge lookup (lines 153-164): `.single()` succeeds exactly when the
filter returns one row; any error is reported as "badge not found". -/
def lookupBadge (badges : List Badge) (slug : String) : Option Badge :=
  match badges.filter (fun b => b.slug == slug) with
  | [b] => some b
  | _ => none

/-- Person upsert phase (lines 166-198): `maybeSingle` lookup by the
normalized email (an error, including a multi-row result, is a 500), then
insert on absence. -/
def personPhase (lookupOk insertOk : Bool) (freshId name key : String)
    (people : List Person) : Except WebhookResponse (String × List Person × List Event) :=
  if lookupOk then
    match people.filter (fun q => q.email == key) with
    | [] =>
      if insertOk then
        let newPerson : Person := { id := freshId, name := name, email := key }
        .ok (freshId, people ++ [newPerson], [Event.insertPerson newPerson])
      else .error .personCreateFailed
    | [q] => .ok (q.id, people, [])
    | _ => .error .personLookupFailed
  else .error .personLookupFailed

/-- Award upsert phase (lines 200-242): `maybeSingle` lookup by
(person, badge), reuse when present, insert otherwise; neither `issued_at`
nor `personalized_description` of an existing row is ever written. -/
def awardPhase (lookupOk insertOk : Bool) (freshId issuedAt personId badgeId : String)
    (description : Option String) (awards : List Award) :
    Except WebhookResponse (Award × List Award × List Event) :=
  if lookupOk then
    match awards.filter (fun a => a.person_id == personId && a.badge_id == badgeId) with
    | [] =>
      if insertOk then
        let newAward : Award :=
          { id := freshId, person_id := personId, badge_id := badgeId,
            issued_at := some issuedAt, personalized_description := description }
        .ok (newAward, awards ++ [newAward], [Event.insertAward newAward])
      else .error .awardCreateFailed
    | [a] => .ok (a, awards, [])
    | _ => .error .awardLookupFailed
  else .error .awardLookupFailed

/-- The 200 body assembled at lines 273-287: badge slug and name echoed,
the normalized recipient email, the award identifier doubling as
verification code, `issued_at` falling back to the request clock, the
effective description, the caught certificate result and the notification
status. -/
def POSTBody (env : Env) (p : Payload) (badge : Badge) (award : Award) : OkBody :=
  { badgeSlug := badge.slug,
    recipientEmail := emailKey p.email,
    recipientName := p.name,
    awardId := award.id,
    verificationCode := award.id,
    issuedAt := award.issued_at.getD env.issuedAt,
    personalizedDescription := effectiveDescription p,
    url := env.origin ++ "/awards/" ++ award.id,
    certificateUrl := env.certResult,
    email := sendAwardNotification env.emailConfigured env.emailSendError }

/-- The `POST` handler (lines 91-288) after payload-shape dispatch:
description generation, badge resolution and lookup, person upsert, award
upsert, then unconditional certificate regeneration (best-effort) and
unconditional email notification, finishing with the 200 body. -/
def POST (env : Env) (p : Payload) (db : DB) : Outcome :=
  let description := effectiveDescription p
  match resolveBadgeSlug p.badgeSlug p.courseId p.courseName with
  | none => { response := .badgeUnresolved, db := db, events := [] }
  | some slug =>
    match lookupBadge db.badges slug with
    | none => { response := .badgeNotFound slug, db := db, events := [] }
    | some badge =>
      let key := emailKey p.email
      match personPhase env.personLookupOk env.personInsertOk env.freshPersonId p.name key
          db.people with
      | .error r => { response := r, db := db, events := [] }
      | .ok (personId, people2, personEvents) =>
        match awardPhase env.awardLookupOk env.awardInsertOk env.freshAwardId env.issuedAt
            personId badge.id description db.awards with
        | .error r => { response := r, db := { db with people := people2 }, events := personEvents }
        | .ok (award, awards2, awardEvents) =>
          { response := .ok (POSTBody env p badge award),
            db := { db with people := people2, awards := awards2 },
            events := personEvents ++ awardEvents ++
              [Event.generateCertificate p.name (award.issued_at.getD env.issuedAt) award.id
                 badge.name,
               Event.sendEmail key p.name badge.name award.id
                 (env.origin ++ "/awards/" ++ award.id) description env.certResult] }

/-- The handler on a validated request body of either shape. -/
def handleBody (env : Env) (body : RequestBody) (db : DB) : Outcome :=
  POST env (extractFields body) db

/-- An environment whose post-award side effects both fail: certificate
generation threw (caught at lines 255-260) and email delivery failed. -/
def failSideEffects (env : Env) (reason : String) : Env :=
  { env with certResult := none, emailConfigured := true, emailSendError := some reason }

/-! Concrete fixtures used by witnesses and counterexamples. -/

/-- A stored badge row. -/
def sampleBadge : Badge :=
  { id := "badge-1", slug := "green-software-practitioner",
    name := "Green Software Practitioner" }

/-- A stored person row. -/
def samplePerson : Person :=
  { id := "person-1", name := "Jane Doe", email := "jane@x.com" }

/-- A stored award row linking the sample person and badge. -/
def sampleAward : Award :=
  { id := "award-1", person_id := "person-1", badge_id := "badge-1",
    issued_at := some "2024-01-01T00:00:00.000Z",
    personalized_description := some "original description" }

/-- A datastore holding only the badge: first-issuance scenario. -/
def freshDb : DB := { badges := [sampleBadge], people := [], awards := [] }

/-- A datastore already holding the person and the award: replay scenario. -/
def replayDb : DB :=
  { badges := [sampleBadge], people := [samplePerson], awards := [sampleAward] }

/-- An all-success environment with a configured email provider. -/
def baseEnv : Env :=
  { freshPersonId := "person-1", freshAwardId := "award-1",
    issuedAt := "2025-05-05T00:00:00.000Z", origin := "https://credentials.example",
    personLookupOk := true, personInsertOk := true,
    awardLookupOk := true, awardInsertOk := true,
    certResult := some "https://storage.example/certificates/awards/award-1.pdf",
    emailConfigured := true, emailSendError := none }

/-- A direct-shape payload for the sample person and the gsp course. -/
def samplePayload : Payload :=
  { name := "Jane Doe", email := "jane@x.com", badgeSlug := none,
    courseId := some "gsp", courseName := none, personalizedDescription := none }

/-- The award row inserted by a first call of `POST baseEnv samplePayload
freshDb`. -/
def firstAward : Award :=
  { id := "award-1", person_id := "person-1", badge_id := "badge-1",
    issued_at := some "2025-05-05T00:00:00.000Z", personalized_description := none }

end GSF

namespace CertificatePdf

/-!
Embedding of the certificate generation module (`certificatePdf`): the
storage-template variant with `${Name}` / `{Date}` / `${CourseName}`
placeholder substitution, and the shared upload/persistence tail that both
variants of `generateCertificateAndUpload` use verbatim.  Filesystem,
storage, clock and browser interactions are environment-supplied. -/

/-- `CERT_BUCKET`. -/
def CERT_BUCKET : String := "certificates"

/-- `NAME_PLACEHOLDER`. -/
def NAME_PLACEHOLDER : String := "${Name}"

/-- `DATE_PLACEHOLDER`. -/
def DATE_PLACEHOLDER : String := "{Date}"

/-- `COURSE_PLACEHOLDER`. -/
def COURSE_PLACEHOLDER : String := "${CourseName}"

/-- The substitution loop of `replacePlaceholders` (lines 102-108): each
placeholder is checked against the current, partially substituted document
and then replaced everywhere it occurs. -/
def substLoop (result : String) : List (String × String) → Except String String
  | [] => .ok result
  | (placeholder, value) :: rest =>
    if GSF.jsIncludes result placeholder then
      substLoop (GSF.jsReplaceAll result placeholder value) rest
    else
      .error ("Certificate template missing placeholder " ++ placeholder)

/-- `replacePlaceholders` (lines 87-111): substitute recipient name,
formatted issuance date, and uppercased badge title, failing when a
placeholder is missing at its processing step. -/
def replacePlaceholders (template recipientName issuedDateLabel badgeTitle : String) :
    Except String String :=
  let badgeTitleUpper := GSF.jsToUpper badgeTitle
  substLoop template
    [(NAME_PLACEHOLDER, recipientName), (DATE_PLACEHOLDER, issuedDateLabel),
     (COURSE_PLACEHOLDER, badgeTitleUpper)]

/-- `injectBaseHref` (lines 113-119). -/
def injectBaseHref (baseHref template : String) : String :=
  let baseTag := "<base href=\"" ++ baseHref ++ "\">"
  if GSF.jsIncludes template baseTag then template
  else if GSF.jsIncludes template "<base" then template
  else GSF.jsReplaceFirst template "<head>" ("<head>" ++ baseTag)

/-- `GenerateOptions`. -/
structure GenerateOptions where
  recipientName : String
  issuedAt : String
  verificationCode : String
  badgeTitle : String
deriving DecidableEq

/-- A storage upload request as issued at lines 269-276: bucket, object
key, and the upload options (`contentType`, `cacheControl`, `upsert`). -/
structure UploadRequest where
  bucket : String
  path : String
  contentType : String
  cacheControl : String
  upsert : Bool
  body : List Nat
deriving DecidableEq

/-- Result of a successful `generateCertificateAndUpload` call
(lines 282-287), together with the upload request it issued. -/
structure UploadOutcome where
  publicUrl : String
  storagePath : String
  issuedDateLabel : String
  request : UploadRequest
deriving DecidableEq

/-- Environment for the certificate module: the locale date formatter, the
downloaded template, asset inlining, the headless renderer, bucket
bookkeeping, the storage public-URL scheme, and the upload result. -/
structure CertEnv where
  formatDate : String → String
  template : Except String String
  inlineAssets : String → Except String String
  renderPdf : String → Except String (List Nat)
  baseHref : String
  publicUrlOf : String → String → String
  bucketError : Option String
  uploadError : Option String

/-- `buildCertificateHtml` (lines 173-183): template download, base-href
injection, placeholder substitution, asset inlining; every thrown error
propagates. -/
def buildCertificateHtml (env : CertEnv) (recipientName issuedDateLabel badgeTitle : String) :
    Except String String :=
  match env.template with
  | .error e => .error e
  | .ok template =>
    let withBase := injectBaseHref env.baseHref template
    match replacePlaceholders withBase recipientName issuedDateLabel badgeTitle with
    | .error e => .error e
    | .ok withValues => env.inlineAssets withValues

/-- `generateCertificatePdf` (lines 243-254). -/
def generateCertificatePdf (env : CertEnv) (o : GenerateOptions) :
    Except String (List Nat) :=
  match buildCertificateHtml env o.recipientName (env.formatDate o.issuedAt) o.badgeTitle with
  | .error e => .error e
  | .ok html => env.renderPdf html

/-- `generateCertificateAndUpload` (lines 256-287): render the PDF, ensure
the public bucket, upload to `awards/{verificationCode}.pdf` with
`contentType: application/pdf`, `cacheControl: "0"`, `upsert: true`, and
return the public URL of that object key. -/
def generateCertificateAndUpload (env : CertEnv) (o : GenerateOptions) :
    Except String UploadOutcome :=
  let issuedDateLabel := env.formatDate o.issuedAt
  match generateCertificatePdf env o with
  | .error e => .error e
  | .ok pdf =>
    match env.bucketError with
    | some msg => .error msg
    | none =>
      let storagePath := "awards/" ++ o.verificationCode ++ ".pdf"
      match env.uploadError with
      | some msg => .error ("Failed to upload certificate: " ++ msg)
      | none =>
        .ok { publicUrl := env.publicUrlOf CERT_BUCKET storagePath,
              storagePath := storagePath,
              issuedDateLabel := issuedDateLabel,
              request :=
                { bucket := CERT_BUCKET, path := storagePath,
                  contentType := "application/pdf", cacheControl := "0",
                  upsert := true, body := pdf } }

/-- A concrete certificate environment: template fetched from storage with
all three placeholders, assets already inline, a stub renderer, and a
working bucket and upload. -/
def sampleCertEnv : CertEnv :=
  { formatDate := fun s => s,
    template := .ok "<head></head><p>${Name} {Date} ${CourseName}</p>",
    inlineAssets := fun h => .ok h,
    renderPdf := fun _ => .ok [37, 80, 68, 70],
    baseHref := "file:///srv/public/",
    publicUrlOf := fun bucket p =>
      "https://storage.example/object/public/" ++ bucket ++ "/" ++ p,
    bucketError := none,
    uploadError := none }

/-- Outcome of `generateCertificateAndUpload sampleCertEnv` for
verification code "code-1" issued on 2025-05-05. -/
def sampleUpload1 : UploadOutcome :=
  { publicUrl := "https://storage.example/object/public/certificates/awards/code-1.pdf",
    storagePath := "awards/code-1.pdf",
    issuedDateLabel := "2025-05-05",
    request :=
      { bucket := "certificates", path := "awards/code-1.pdf",
        contentType := "application/pdf", cacheControl := "0",
        upsert := true, body := [37, 80, 68, 70] } }

/-- Outcome of the regeneration for the same verification code "code-1" on
a later date with a different recipient spelling. -/
def sampleUpload2 : UploadOutcome :=
  { sampleUpload1 with issuedDateLabel := "2025-06-06" }

end CertificatePdf

/-! ## Badge resolution (claims C3, C5) -/

/-- C3 counterexample: with no candidate at all (no explicit slug, no
course id, no course name) `resolveBadgeSlug` does not report a resolution
failure; it returns the configured default slug, so the claimed
"resolution failure exactly when no candidate exists" is false. -/
theorem resolveBadgeSlug_empty_payload_no_failure :
    GSF.resolveBadgeSlug none none none ≠ none ∧
    GSF.resolveBadgeSlug none none none = some GSF.DEFAULT_BADGE_SLUG := by
  decide

/-- C3 (amended): badge slug resolution never fails: the result is always
some slug, and whenever no candidate hits the alias table (including the
no-candidate case) the configured default slug is returned; the handler's
"badge could not be resolved" branch is unreachable. -/
theorem resolveBadgeSlug_total_and_defaults (bs ci cn : Option String) :
    (GSF.resolveBadgeSlug bs ci cn).isSome = true ∧
    ((∀ c ∈ GSF.resolveCandidates bs ci cn, GSF.COURSE_TO_BADGE_SLUG c = none) →
      GSF.resolveBadgeSlug bs ci cn = some GSF.DEFAULT_BADGE_SLUG) := by
  constructor
  · unfold GSF.resolveBadgeSlug
    cases h : (GSF.resolveCandidates bs ci cn).findSome? GSF.COURSE_TO_BADGE_SLUG <;> simp
  · intro h
    unfold GSF.resolveBadgeSlug
    rw [List.findSome?_eq_none_iff.mpr h]

/-- C3 witness: a single unrecognized candidate misses the alias table
everywhere and resolves to the default slug. -/
theorem resolveBadgeSlug_total_and_defaults_witness :
    (∀ c ∈ GSF.resolveCandidates (some "totally-unknown-course") none none,
      GSF.COURSE_TO_BADGE_SLUG c = none) ∧
    GSF.resolveBadgeSlug (some "totally-unknown-course") none none =
      some GSF.DEFAULT_BADGE_SLUG :=
  ⟨by decide, (resolveBadgeSlug_total_and_defaults (some "totally-unknown-course") none none).2
    (by decide)⟩

/-- C5 counterexample: an explicit `badgeSlug` that is not a recognized
alias does not determine the resolved slug: with a conflicting recognized
`courseId` the course id wins, while the same explicit slug alone resolves
to the default, a different badge. -/
theorem resolveBadgeSlug_explicit_slug_not_always_winning :
    GSF.resolveBadgeSlug (some "unrecognized-badge") (some "scs") none =
      some "sustainable-cloud-specialist" ∧
    GSF.resolveBadgeSlug (some "unrecognized-badge") none none =
      some "green-software-practitioner" ∧
    ("sustainable-cloud-specialist" : String) ≠ "green-software-practitioner" := by
  decide

/-- C5 (amended): resolution is a deterministic function of the three
candidates, normalized by trim plus lowercase and checked in the fixed
order explicit slug, course id, course name, first alias hit winning;
consequently an explicit `badgeSlug` whose normalization is itself a
recognized alias always determines the resolved slug, whatever conflicting
`courseId` or `courseName` accompany it. -/
theorem resolveBadgeSlug_explicit_wins_when_recognized
    (bs ci cn : Option String) (nb s : String)
    (hn : GSF.normalize bs = some nb) (hhit : GSF.COURSE_TO_BADGE_SLUG nb = some s) :
    GSF.resolveBadgeSlug bs ci cn = some s := by
  have hnone : GSF.COURSE_TO_BADGE_SLUG "" = none := by decide
  have hnb : ¬ nb = "" := by
    intro h
    rw [h, hnone] at hhit
    exact Option.noConfusion hhit
  unfold GSF.resolveBadgeSlug GSF.resolveCandidates
  rw [hn]
  simp [List.filterMap_cons, List.filter_cons, hnb, List.findSome?_cons, hhit]

/-- C5 witness: the explicit slug " GSP " is trimmed and lowercased to the
recognized alias "gsp" and wins over the conflicting course id "scs". -/
theorem resolveBadgeSlug_explicit_wins_witness :
    GSF.normalize (some " GSP ") = some "gsp" ∧
    GSF.COURSE_TO_BADGE_SLUG "gsp" = some "green-software-practitioner" ∧
    GSF.resolveBadgeSlug (some " GSP ") (some "scs") none =
      some "green-software-practitioner" :=
  ⟨by decide, by decide,
    resolveBadgeSlug_explicit_wins_when_recognized (some " GSP ") (some "scs") none
      "gsp" "green-software-practitioner" (by decide) (by decide)⟩

/-! ## Certificate template substitution (claim C7) -/

/-- C7 counterexample: the date placeholder is absent from the fetched
template, yet `replacePlaceholders` succeeds, because the recipient name
substituted for the name placeholder introduced the date token into the
partially substituted document; the claimed unconditional fail-fast on a
placeholder missing from the template is false. -/
theorem replacePlaceholders_masks_missing_template_placeholder :
    GSF.jsIncludes "${Name} & ${CourseName}" CertificatePdf.DATE_PLACEHOLDER = false ∧
    CertificatePdf.replacePlaceholders "${Name} & ${CourseName}" "{Date}" "January 1, 2024"
      "Excellence" = .ok "January 1, 2024 & EXCELLENCE" :=
  ⟨by decide, rfl⟩

/-- C7 (amended): placeholder substitution checks each required
placeholder against the partially substituted document, in the order
recipient name, issuance date, badge title, and fails fast with an error
naming the first placeholder absent at its processing step (in particular
a template without the name placeholder is always rejected); when every
placeholder is present at its step, every occurrence is substituted and
the fully substituted document is returned. -/
theorem replacePlaceholders_stepwise (t n d c : String) :
    (GSF.jsIncludes t CertificatePdf.NAME_PLACEHOLDER = false →
      CertificatePdf.replacePlaceholders t n d c =
        .error ("Certificate template missing placeholder " ++ CertificatePdf.NAME_PLACEHOLDER)) ∧
    (GSF.jsIncludes t CertificatePdf.NAME_PLACEHOLDER = true →
      GSF.jsIncludes (GSF.jsReplaceAll t CertificatePdf.NAME_PLACEHOLDER n)
          CertificatePdf.DATE_PLACEHOLDER = false →
      CertificatePdf.replacePlaceholders t n d c =
        .error ("Certificate template missing placeholder " ++ CertificatePdf.DATE_PLACEHOLDER)) ∧
    (GSF.jsIncludes t CertificatePdf.NAME_PLACEHOLDER = true →
      GSF.jsIncludes (GSF.jsReplaceAll t CertificatePdf.NAME_PLACEHOLDER n)
          CertificatePdf.DATE_PLACEHOLDER = true →
      GSF.jsIncludes
          (GSF.jsReplaceAll (GSF.jsReplaceAll t CertificatePdf.NAME_PLACEHOLDER n)
            CertificatePdf.DATE_PLACEHOLDER d)
          CertificatePdf.COURSE_PLACEHOLDER = false →
      CertificatePdf.replacePlaceholders t n d c =
        .error ("Certificate template missing placeholder " ++ CertificatePdf.COURSE_PLACEHOLDER)) ∧
    (GSF.jsIncludes t CertificatePdf.NAME_PLACEHOLDER = true →
      GSF.jsIncludes (GSF.jsReplaceAll t CertificatePdf.NAME_PLACEHOLDER n)
          CertificatePdf.DATE_PLACEHOLDER = true →
      GSF.jsIncludes
          (GSF.jsReplaceAll (GSF.jsReplaceAll t CertificatePdf.NAME_PLACEHOLDER n)
            CertificatePdf.DATE_PLACEHOLDER d)
          CertificatePdf.COURSE_PLACEHOLDER = true →
      CertificatePdf.replacePlaceholders t n d c =
        .ok (GSF.jsReplaceAll
              (GSF.jsReplaceAll (GSF.jsReplaceAll t CertificatePdf.NAME_PLACEHOLDER n)
                CertificatePdf.DATE_PLACEHOLDER d)
              CertificatePdf.COURSE_PLACEHOLDER (GSF.jsToUpper c))) := by
  refine ⟨?_, ?_, ?_, ?_⟩
  · intro h1
    simp [CertificatePdf.replacePlaceholders, CertificatePdf.substLoop, h1]
  · intro h1 h2
    simp [CertificatePdf.replacePlaceholders, CertificatePdf.substLoop, h1, h2]
  · intro h1 h2 h3
    simp [CertificatePdf.replacePlaceholders, CertificatePdf.substLoop, h1, h2, h3]
  · intro h1 h2 h3
    simp [CertificatePdf.replacePlaceholders, CertificatePdf.substLoop, h1, h2, h3]

/-- C7 witness: a template holding all three placeholders passes every
stepwise check and is returned fully substituted. -/
theorem replacePlaceholders_stepwise_witness :
    GSF.jsIncludes "<p>${Name}|{Date}|${CourseName}</p>" CertificatePdf.NAME_PLACEHOLDER = true ∧
    CertificatePdf.replacePlaceholders "<p>${Name}|{Date}|${CourseName}</p>" "Jane Doe"
      "May 5, 2025" "Sustainable Cloud Specialist" =
      .ok "<p>Jane Doe|May 5, 2025|SUSTAINABLE CLOUD SPECIALIST</p>" :=
  ⟨by decide,
    (replacePlaceholders_stepwise "<p>${Name}|{Date}|${CourseName}</p>" "Jane Doe"
      "May 5, 2025" "Sustainable Cloud Specialist").2.2.2 (by decide) (by decide) (by decide)⟩

/-! ## Handler phase lemmas (shared helpers) -/

namespace GSF

/-- When the lookup succeeds and finds exactly one person for the key, the
person phase reuses that row untouched. -/
theorem personPhase_found {ik : Bool} {fid nm key : String} {people : List Person} {q : Person}
    (hq : people.filter (fun r => r.email == key) = [q]) :
    personPhase true ik fid nm key people = .ok (q.id, people, []) := by
  simp [personPhase, hq]

/-- A successful person phase leaves exactly one row matching the lookup
key, and its id is the returned person id. -/
theorem personPhase_ok_filter {lk ik : Bool} {fid nm key : String}
    {people people2 : List Person} {pid : String} {evs : List Event}
    (h : personPhase lk ik fid nm key people = .ok (pid, people2, evs)) :
    ∃ q : Person, people2.filter (fun r => r.email == key) = [q] ∧ q.id = pid := by
  unfold personPhase at h
  split at h
  · split at h
    · split at h
      · simp only [Except.ok.injEq, Prod.mk.injEq] at h
        obtain ⟨rfl, rfl, rfl⟩ := h
        refine ⟨{ id := fid, name := nm, email := key }, ?_, rfl⟩
        rename_i hf _
        simp [List.filter_append, hf]
      · exact absurd h (by simp)
    · rename_i q hf
      simp only [Except.ok.injEq, Prod.mk.injEq] at h
      obtain ⟨rfl, rfl, rfl⟩ := h
      exact ⟨q, hf, rfl⟩
    · exact absurd h (by simp)
  · exact absurd h (by simp)

/-- The person phase only fails with one of the two person 500s. -/
theorem personPhase_error {lk ik : Bool} {fid nm key : String} {people : List Person}
    {r : WebhookResponse} (h : personPhase lk ik fid nm key people = .error r) :
    r = WebhookResponse.personLookupFailed ∨ r = WebhookResponse.personCreateFailed := by
  unfold personPhase at h
  split at h
  · split at h
    · split at h
      · exact absurd h (by simp)
      · simp only [Except.error.injEq] at h
        exact Or.inr h.symm
    · exact absurd h (by simp)
    · simp only [Except.error.injEq] at h
      exact Or.inl h.symm
  · simp only [Except.error.injEq] at h
    exact Or.inl h.symm

/-- A successful person phase either performed no insert or inserted
exactly the fresh row. -/
theorem personPhase_ok_events {lk ik : Bool} {fid nm key : String}
    {people people2 : List Person} {pid : String} {evs : List Event}
    (h : personPhase lk ik fid nm key people = .ok (pid, people2, evs)) :
    evs = [] ∨
      (evs = [Event.insertPerson { id := fid, name := nm, email := key }] ∧ pid = fid) := by
  unfold personPhase at h
  split at h
  · split at h
    · split at h
      · simp only [Except.ok.injEq, Prod.mk.injEq] at h
        obtain ⟨rfl, rfl, rfl⟩ := h
        exact Or.inr ⟨rfl, rfl⟩
      · exact absurd h (by simp)
    · simp only [Except.ok.injEq, Prod.mk.injEq] at h
      obtain ⟨rfl, rfl, rfl⟩ := h
      exact Or.inl rfl
    · exact absurd h (by simp)
  · exact absurd h (by simp)

/-- When the lookup succeeds and finds exactly one award for the pair, the
award phase reuses that row untouched. -/
theorem awardPhase_found {ik : Bool} {fid ia pid bid : String} {desc : Option String}
    {awards : List Award} {a : Award}
    (hq : awards.filter (fun x => x.person_id == pid && x.badge_id == bid) = [a]) :
    awardPhase true ik fid ia pid bid desc awards = .ok (a, awards, []) := by
  simp [awardPhase, hq]

/-- A successful award phase leaves exactly one row matching the
(person, badge) pair: the award it returned. -/
theorem awardPhase_ok_filter {lk ik : Bool} {fid ia pid bid : String} {desc : Option String}
    {awards awards2 : List Award} {award : Award} {evs : List Event}
    (h : awardPhase lk ik fid ia pid bid desc awards = .ok (award, awards2, evs)) :
    awards2.filter (fun x => x.person_id == pid && x.badge_id == bid) = [award] := by
  unfold awardPhase at h
  split at h
  · split at h
    · split at h
      · simp only [Except.ok.injEq, Prod.mk.injEq] at h
        obtain ⟨rfl, rfl, rfl⟩ := h
        rename_i hf _
        simp [List.filter_append, hf]
      · exact absurd h (by simp)
    · rename_i a hf
      simp only [Except.ok.injEq, Prod.mk.injEq] at h
      obtain ⟨rfl, rfl, rfl⟩ := h
      exact hf
    · exact absurd h (by simp)
  · exact absurd h (by simp)

/-- The award phase only fails with one of the two award 500s. -/
theorem awardPhase_error {lk ik : Bool} {fid ia pid bid : String} {desc : Option String}
    {awards : List Award} {r : WebhookResponse}
    (h : awardPhase lk ik fid ia pid bid desc awards = .error r) :
    r = WebhookResponse.awardLookupFailed ∨ r = WebhookResponse.awardCreateFailed := by
  unfold awardPhase at h
  split at h
  · split at h
    · split at h
      · exact absurd h (by simp)
      · simp only [Except.error.injEq] at h
        exact Or.inr h.symm
    · exact absurd h (by simp)
    · simp only [Except.error.injEq] at h
      exact Or.inl h.symm
  · simp only [Except.error.injEq] at h
    exact Or.inl h.symm

/-- A successful award phase either performed no insert (replay) or
inserted exactly the fresh award row it returned. -/
theorem awardPhase_ok_events {lk ik : Bool} {fid ia pid bid : String} {desc : Option String}
    {awards awards2 : List Award} {award : Award} {evs : List Event}
    (h : awardPhase lk ik fid ia pid bid desc awards = .ok (award, awards2, evs)) :
    evs = [] ∨ (evs = [Event.insertAward award] ∧
      award = { id := fid, person_id := pid, badge_id := bid, issued_at := some ia,
                personalized_description := desc }) := by
  unfold awardPhase at h
  split at h
  · split at h
    · split at h
      · simp only [Except.ok.injEq, Prod.mk.injEq] at h
        obtain ⟨rfl, rfl, rfl⟩ := h
        exact Or.inr ⟨rfl, rfl⟩
      · exact absurd h (by simp)
    · simp only [Except.ok.injEq, Prod.mk.injEq] at h
      obtain ⟨rfl, rfl, rfl⟩ := h
      exact Or.inl rfl
    · exact absurd h (by simp)
  · exact absurd h (by simp)

/-- Forward construction of a fully successful handler run from the
outcomes of its phases. -/
theorem POST_build {env : Env} {p : Payload} {db : DB} {slug : String} {badge : Badge}
    {pid : String} {people2 : List Person} {pevs : List Event}
    {award : Award} {awards2 : List Award} {aevs : List Event}
    (hs : resolveBadgeSlug p.badgeSlug p.courseId p.courseName = some slug)
    (hb : lookupBadge db.badges slug = some badge)
    (hp : personPhase env.personLookupOk env.personInsertOk env.freshPersonId p.name
      (emailKey p.email) db.people = .ok (pid, people2, pevs))
    (haw : awardPhase env.awardLookupOk env.awardInsertOk env.freshAwardId env.issuedAt pid
      badge.id (effectiveDescription p) db.awards = .ok (award, awards2, aevs)) :
    POST env p db =
      { response := .ok (POSTBody env p badge award),
        db := { db with people := people2, awards := awards2 },
        events := pevs ++ aevs ++
          [Event.generateCertificate p.name (award.issued_at.getD env.issuedAt) award.id
             badge.name,
           Event.sendEmail (emailKey p.email) p.name badge.name award.id
             (env.origin ++ "/awards/" ++ award.id) (effectiveDescription p)
             env.certResult] } := by
  simp only [POST, hs, hb, hp, haw]

/-- Inversion of a 200 handler outcome into the successes of its phases. -/
theorem POST_ok_inversion {env : Env} {p : Payload} {db : DB} {b : OkBody}
    (h : (POST env p db).response = .ok b) :
    ∃ slug badge pid people2 pevs award awards2 aevs,
      resolveBadgeSlug p.badgeSlug p.courseId p.courseName = some slug ∧
      lookupBadge db.badges slug = some badge ∧
      personPhase env.personLookupOk env.personInsertOk env.freshPersonId p.name
        (emailKey p.email) db.people = .ok (pid, people2, pevs) ∧
      awardPhase env.awardLookupOk env.awardInsertOk env.freshAwardId env.issuedAt pid
        badge.id (effectiveDescription p) db.awards = .ok (award, awards2, aevs) ∧
      b = POSTBody env p badge award := by
  simp only [POST] at h
  split at h
  · exact absurd h (by simp)
  · split at h
    · exact absurd h (by simp)
    · split at h
      · rename_i r hp
        simp only [] at h
        rcases personPhase_error hp with rfl | rfl
        · exact absurd h (by simp)
        · exact absurd h (by simp)
      · split at h
        · rename_i r haw
          simp only [] at h
          rcases awardPhase_error haw with rfl | rfl
          · exact absurd h (by simp)
          · exact absurd h (by simp)
        · rename_i x1 slug hs x2 badge hb x3 pid people2 pevs hp x4 award awards2 aevs haw
          simp only [WebhookResponse.ok.injEq] at h
          exact ⟨slug, badge, pid, people2, pevs, award, awards2, aevs, hs, hb, hp, haw, h.symm⟩

/-- Every award insert performed by the handler stores the effective
description, and every 200 body echoes it. -/
theorem POST_description_flows (env : Env) (p : Payload) (db : DB) :
    (∀ a, Event.insertAward a ∈ (POST env p db).events →
      a.personalized_description = effectiveDescription p) ∧
    (∀ b, (POST env p db).response = .ok b →
      b.personalizedDescription = effectiveDescription p) := by
  constructor
  · intro a hmem
    cases hs : resolveBadgeSlug p.badgeSlug p.courseId p.courseName with
    | none => simp [POST, hs] at hmem
    | some slug =>
      cases hb : lookupBadge db.badges slug with
      | none => simp [POST, hs, hb] at hmem
      | some badge =>
        cases hp : personPhase env.personLookupOk env.personInsertOk env.freshPersonId p.name
            (emailKey p.email) db.people with
        | error r => simp [POST, hs, hb, hp] at hmem
        | ok trip =>
          obtain ⟨pid, people2, pevs⟩ := trip
          cases haw : awardPhase env.awardLookupOk env.awardInsertOk env.freshAwardId
              env.issuedAt pid badge.id (effectiveDescription p) db.awards with
          | error r =>
            rcases personPhase_ok_events hp with rfl | ⟨rfl, rfl⟩
            · simp [POST, hs, hb, hp, haw] at hmem
            · simp [POST, hs, hb, hp, haw] at hmem
          | ok trip2 =>
            obtain ⟨award, awards2, aevs⟩ := trip2
            have hout := POST_build hs hb hp haw
            rw [hout] at hmem
            rcases awardPhase_ok_events haw with rfl | ⟨rfl, rfl⟩
            · rcases personPhase_ok_events hp with rfl | ⟨rfl, rfl⟩
              · simp at hmem
              · simp at hmem
            · rcases personPhase_ok_events hp with rfl | ⟨rfl, rfl⟩
              · simp at hmem
                rw [hmem]
              · simp at hmem
                rw [hmem]
  · intro b hresp
    obtain ⟨slug, badge, pid, people2, pevs, award, awards2, aevs, hs, hbadge, hp, haw, rfl⟩ :=
      POST_ok_inversion hresp
    rfl

/-- For an email whose trimmed lowercasing is non-empty, the handler key
is exactly that trimmed lowercasing. -/
theorem emailKey_of_trim_ne (e : String) (h : jsToLower (jsTrim e) ≠ "") :
    emailKey e = jsToLower (jsTrim e) := by
  unfold emailKey normalize
  by_cases he : e = ""
  · subst he
    exact absurd (by decide) h
  · simp [he, h]

/-- The handler reads the request email only through `emailKey`: payloads
with the same key produce identical outcomes. -/
theorem POST_email_congr (env : Env) (db : DB) (p : Payload) (e2 : String)
    (hk : emailKey e2 = emailKey p.email) :
    POST env { p with email := e2 } db = POST env p db := by
  obtain ⟨nm, em, bs, ci, cn, pd⟩ := p
  show POST env (Payload.mk nm e2 bs ci cn pd) db = POST env (Payload.mk nm em bs ci cn pd) db
  simp only [POST, POSTBody, effectiveDescription]
  rw [show emailKey e2 = emailKey em from hk]

/-- Inversion of a successful certificate upload: the object key is the
deterministic award path, the public URL is the storage URL of that key,
and the upload options are the unconditional-overwrite, no-caching ones. -/
theorem generateCertificateAndUpload_ok_inversion {env : CertificatePdf.CertEnv}
    {o : CertificatePdf.GenerateOptions} {r : CertificatePdf.UploadOutcome}
    (h : CertificatePdf.generateCertificateAndUpload env o = .ok r) :
    r.storagePath = "awards/" ++ o.verificationCode ++ ".pdf" ∧
    r.publicUrl = env.publicUrlOf CertificatePdf.CERT_BUCKET
      ("awards/" ++ o.verificationCode ++ ".pdf") ∧
    r.request.path = r.storagePath ∧
    r.request.bucket = CertificatePdf.CERT_BUCKET ∧
    r.request.upsert = true ∧
    r.request.cacheControl = "0" := by
  unfold CertificatePdf.generateCertificateAndUpload at h
  split at h
  · exact absurd h (by simp)
  · split at h
    · exact absurd h (by simp)
    · split at h
      · exact absurd h (by simp)
      · simp only [Except.ok.injEq] at h
        subst h
        exact ⟨rfl, rfl, rfl, rfl, rfl, rfl⟩

end GSF

/-! ## Award idempotency (claim C1) -/

/-- C1: replaying the completion signal for the same payload against the
datastore produced by a successful first call yields a 200 with the same
award id, performs no award insert and no person insert, and leaves the
datastore, in particular the stored `issued_at` and
`personalized_description` of the existing award, entirely unchanged. -/
theorem POST_replay_idempotent (e1 e2 : GSF.Env) (p : GSF.Payload) (db : GSF.DB)
    (b1 : GSF.OkBody) (h1 : (GSF.POST e1 p db).response = .ok b1)
    (hl : e2.personLookupOk = true) (ha : e2.awardLookupOk = true) :
    ∃ b2, (GSF.POST e2 p (GSF.POST e1 p db).db).response = .ok b2 ∧
      b2.awardId = b1.awardId ∧
      (GSF.POST e2 p (GSF.POST e1 p db).db).db = (GSF.POST e1 p db).db ∧
      (∀ a, GSF.Event.insertAward a ∉ (GSF.POST e2 p (GSF.POST e1 p db).db).events) ∧
      (∀ r, GSF.Event.insertPerson r ∉ (GSF.POST e2 p (GSF.POST e1 p db).db).events) := by
  obtain ⟨slug, badge, pid, people2, pevs, award, awards2, aevs, hs, hb, hp, haw, hbody⟩ :=
    GSF.POST_ok_inversion h1
  have hout1 := GSF.POST_build hs hb hp haw
  obtain ⟨q, hqf, hqid⟩ := GSF.personPhase_ok_filter hp
  have haf := GSF.awardPhase_ok_filter haw
  have hp2 : GSF.personPhase e2.personLookupOk e2.personInsertOk e2.freshPersonId p.name
      (GSF.emailKey p.email) people2 = .ok (pid, people2, []) := by
    rw [hl]
    have hfound := @GSF.personPhase_found e2.personInsertOk e2.freshPersonId p.name
      (GSF.emailKey p.email) people2 q hqf
    rwa [hqid] at hfound
  have haw2 : GSF.awardPhase e2.awardLookupOk e2.awardInsertOk e2.freshAwardId e2.issuedAt pid
      badge.id (GSF.effectiveDescription p) awards2 = .ok (award, awards2, []) := by
    rw [ha]
    exact GSF.awardPhase_found haf
  have hout2 := @GSF.POST_build e2 p { db with people := people2, awards := awards2 }
      _ _ _ _ _ _ _ _ hs hb hp2 haw2
  rw [hout1]
  dsimp only
  rw [hout2]
  refine ⟨GSF.POSTBody e2 p badge award, rfl, ?_, rfl, ?_, ?_⟩
  · rw [hbody]
    rfl
  · intro a
    simp
  · intro r
    simp

/-- C1 witness: a first call on an empty store issues award-1; replaying
the same payload returns the same award id, inserts nothing and changes
nothing. -/
theorem POST_replay_idempotent_witness :
    (GSF.POST GSF.baseEnv GSF.samplePayload GSF.freshDb).response =
      .ok (GSF.POSTBody GSF.baseEnv GSF.samplePayload GSF.sampleBadge GSF.firstAward) ∧
    GSF.baseEnv.personLookupOk = true ∧
    GSF.baseEnv.awardLookupOk = true ∧
    (∃ b2, (GSF.POST GSF.baseEnv GSF.samplePayload
        (GSF.POST GSF.baseEnv GSF.samplePayload GSF.freshDb).db).response = .ok b2 ∧
      b2.awardId = (GSF.POSTBody GSF.baseEnv GSF.samplePayload GSF.sampleBadge
        GSF.firstAward).awardId ∧
      (GSF.POST GSF.baseEnv GSF.samplePayload
        (GSF.POST GSF.baseEnv GSF.samplePayload GSF.freshDb).db).db =
        (GSF.POST GSF.baseEnv GSF.samplePayload GSF.freshDb).db ∧
      (∀ a, GSF.Event.insertAward a ∉ (GSF.POST GSF.baseEnv GSF.samplePayload
        (GSF.POST GSF.baseEnv GSF.samplePayload GSF.freshDb).db).events) ∧
      (∀ r, GSF.Event.insertPerson r ∉ (GSF.POST GSF.baseEnv GSF.samplePayload
        (GSF.POST GSF.baseEnv GSF.samplePayload GSF.freshDb).db).events)) :=
  ⟨by decide, rfl, rfl,
    POST_replay_idempotent GSF.baseEnv GSF.baseEnv GSF.samplePayload GSF.freshDb
      (GSF.POSTBody GSF.baseEnv GSF.samplePayload GSF.sampleBadge GSF.firstAward)
      (by decide) rfl rfl⟩

/-! ## Notification on replay (claim C2) -/

/-- C2: on an idempotent replay (the award already exists before the
request) the handler still calls the notification sender and returns its
result — here a configured provider reports `sent` — and no reachable
return of `sendAwardNotification` ever equals
`skipped("existing award reused")`: the handler initializes that status at
line 219 but unconditionally overwrites it at line 271, contradicting the
documented replay behavior while the stored award stays unchanged. -/
theorem POST_replay_still_sends_email :
    (GSF.POST GSF.baseEnv GSF.samplePayload GSF.replayDb).response =
      .ok (GSF.POSTBody GSF.baseEnv GSF.samplePayload GSF.sampleBadge GSF.sampleAward) ∧
    (GSF.POSTBody GSF.baseEnv GSF.samplePayload GSF.sampleBadge GSF.sampleAward).email =
      .sent ∧
    GSF.Event.sendEmail "jane@x.com" "Jane Doe" "Green Software Practitioner" "award-1"
        "https://credentials.example/awards/award-1" none
        (some "https://storage.example/certificates/awards/award-1.pdf") ∈
      (GSF.POST GSF.baseEnv GSF.samplePayload GSF.replayDb).events ∧
    (GSF.POST GSF.baseEnv GSF.samplePayload GSF.replayDb).db.awards = GSF.replayDb.awards ∧
    (∀ configured sendError, GSF.sendAwardNotification configured sendError ≠
      GSF.EmailSendStatus.skipped "existing award reused") := by
  refine ⟨by decide, by decide, by decide, by decide, ?_⟩
  intro configured sendError
  cases configured <;> cases sendError <;> simp [GSF.sendAwardNotification]

/-! ## Best-effort side effects (claim C4) -/

/-- C4: whenever a request reaches a 200 (the award upsert succeeded),
failing both the certificate generation (caught exception) and the email
delivery still yields a 200 with the same award identity; the failures
surface only as an absent `certificateUrl` and a `failed` email status
inside the body, and the stored data is identical. -/
theorem POST_side_effect_failures_keep_ok (env : GSF.Env) (p : GSF.Payload) (db : GSF.DB)
    (b : GSF.OkBody) (reason : String) (h : (GSF.POST env p db).response = .ok b) :
    ∃ b2, (GSF.POST (GSF.failSideEffects env reason) p db).response = .ok b2 ∧
      (GSF.POST (GSF.failSideEffects env reason) p db).response.statusCode = 200 ∧
      b2.certificateUrl = none ∧
      b2.email = .failed reason ∧
      b2.awardId = b.awardId ∧
      b2.issuedAt = b.issuedAt ∧
      b2.personalizedDescription = b.personalizedDescription ∧
      (GSF.POST (GSF.failSideEffects env reason) p db).db = (GSF.POST env p db).db := by
  obtain ⟨slug, badge, pid, people2, pevs, award, awards2, aevs, hs, hb, hp, haw, rfl⟩ :=
    GSF.POST_ok_inversion h
  have hout1 := GSF.POST_build hs hb hp haw
  have hout2 := @GSF.POST_build (GSF.failSideEffects env reason) p db
    _ _ _ _ _ _ _ _ hs hb hp haw
  rw [hout1, hout2]
  exact ⟨GSF.POSTBody (GSF.failSideEffects env reason) p badge award, rfl, rfl, rfl, rfl, rfl,
    rfl, rfl, rfl⟩

/-- C4 witness: a concrete successful issuance stays a 200 with the same
award when certificate generation and email delivery both fail. -/
theorem POST_side_effect_failures_keep_ok_witness :
    (GSF.POST GSF.baseEnv GSF.samplePayload GSF.freshDb).response =
      .ok (GSF.POSTBody GSF.baseEnv GSF.samplePayload GSF.sampleBadge GSF.firstAward) ∧
    (∃ b2, (GSF.POST (GSF.failSideEffects GSF.baseEnv "provider down") GSF.samplePayload
        GSF.freshDb).response = .ok b2 ∧
      (GSF.POST (GSF.failSideEffects GSF.baseEnv "provider down") GSF.samplePayload
        GSF.freshDb).response.statusCode = 200 ∧
      b2.certificateUrl = none ∧
      b2.email = .failed "provider down" ∧
      b2.awardId = (GSF.POSTBody GSF.baseEnv GSF.samplePayload GSF.sampleBadge
        GSF.firstAward).awardId ∧
      b2.issuedAt = (GSF.POSTBody GSF.baseEnv GSF.samplePayload GSF.sampleBadge
        GSF.firstAward).issuedAt ∧
      b2.personalizedDescription = (GSF.POSTBody GSF.baseEnv GSF.samplePayload GSF.sampleBadge
        GSF.firstAward).personalizedDescription ∧
      (GSF.POST (GSF.failSideEffects GSF.baseEnv "provider down") GSF.samplePayload
        GSF.freshDb).db = (GSF.POST GSF.baseEnv GSF.samplePayload GSF.freshDb).db) :=
  ⟨by decide,
    POST_side_effect_failures_keep_ok GSF.baseEnv GSF.samplePayload GSF.freshDb
      (GSF.POSTBody GSF.baseEnv GSF.samplePayload GSF.sampleBadge GSF.firstAward)
      "provider down" (by decide)⟩

/-! ## Email normalization (claim C6) -/

/-- C6: the handler reads the request email only through the trim-plus-
lowercase key used for both lookup and storage, so two emails that agree
after trimming and lowercasing (the normalized form being non-empty, as
guaranteed for any validated email address) produce identical outcomes —
same person lookup, same stored row, same response — and the key equals
exactly the trimmed lowercased email. -/
theorem POST_email_case_whitespace_insensitive (env : GSF.Env) (p : GSF.Payload)
    (db : GSF.DB) (e2 : String)
    (h : GSF.jsToLower (GSF.jsTrim p.email) = GSF.jsToLower (GSF.jsTrim e2))
    (hne : GSF.jsToLower (GSF.jsTrim e2) ≠ "") :
    GSF.POST env { p with email := e2 } db = GSF.POST env p db ∧
    GSF.emailKey p.email = GSF.jsToLower (GSF.jsTrim p.email) := by
  have h1 : GSF.emailKey p.email = GSF.jsToLower (GSF.jsTrim p.email) :=
    GSF.emailKey_of_trim_ne _ (by rw [h]; exact hne)
  have h2 : GSF.emailKey e2 = GSF.jsToLower (GSF.jsTrim e2) :=
    GSF.emailKey_of_trim_ne _ hne
  have hk : GSF.emailKey e2 = GSF.emailKey p.email := by
    rw [h1, h2, h]
  exact ⟨GSF.POST_email_congr env db p e2 hk, h1⟩

/-- C6 witness: "Jane@X.com" and " jane@x.com " agree after trim and
lowercase and drive the handler to identical outcomes with the key
"jane@x.com". -/
theorem POST_email_case_whitespace_insensitive_witness :
    GSF.jsToLower (GSF.jsTrim GSF.samplePayload.email) =
      GSF.jsToLower (GSF.jsTrim " Jane@X.com ") ∧
    GSF.jsToLower (GSF.jsTrim " Jane@X.com ") ≠ "" ∧
    (GSF.POST GSF.baseEnv { GSF.samplePayload with email := " Jane@X.com " } GSF.freshDb =
      GSF.POST GSF.baseEnv GSF.samplePayload GSF.freshDb ∧
     GSF.emailKey GSF.samplePayload.email =
      GSF.jsToLower (GSF.jsTrim GSF.samplePayload.email)) :=
  ⟨by decide, by decide,
    POST_email_case_whitespace_insensitive GSF.baseEnv GSF.samplePayload GSF.freshDb
      " Jane@X.com " (by decide) (by decide)⟩

/-! ## Person reuse (claim C9) -/

/-- C9: when the normalized email matches exactly one stored person, the
handler never modifies the people table — in particular the stored name
survives even when the payload carries a different name — performs no
person insert, and any award insert it performs references that stored
person's identifier. -/
theorem POST_existing_person_untouched (env : GSF.Env) (p : GSF.Payload) (db : GSF.DB)
    (q : GSF.Person)
    (hq : db.people.filter (fun r => r.email == GSF.emailKey p.email) = [q]) :
    (GSF.POST env p db).db.people = db.people ∧
    (∀ r, GSF.Event.insertPerson r ∉ (GSF.POST env p db).events) ∧
    (∀ a, GSF.Event.insertAward a ∈ (GSF.POST env p db).events → a.person_id = q.id) := by
  by_cases hl : env.personLookupOk = true
  · have hp := @GSF.personPhase_found env.personInsertOk env.freshPersonId p.name
      (GSF.emailKey p.email) db.people q hq
    rw [← hl] at hp
    cases hs : GSF.resolveBadgeSlug p.badgeSlug p.courseId p.courseName with
    | none => simp [GSF.POST, hs]
    | some slug =>
      cases hb : GSF.lookupBadge db.badges slug with
      | none => simp [GSF.POST, hs, hb]
      | some badge =>
        cases haw : GSF.awardPhase env.awardLookupOk env.awardInsertOk env.freshAwardId
            env.issuedAt q.id badge.id (GSF.effectiveDescription p) db.awards with
        | error r => simp [GSF.POST, hs, hb, hp, haw]
        | ok res =>
          obtain ⟨award, awards2, aevs⟩ := res
          have hout := GSF.POST_build hs hb hp haw
          rw [hout]
          rcases GSF.awardPhase_ok_events haw with rfl | ⟨rfl, rfl⟩
          · refine ⟨rfl, ?_, ?_⟩
            · intro r
              simp
            · intro a hmem
              simp at hmem
          · refine ⟨rfl, ?_, ?_⟩
            · intro r
              simp
            · intro a hmem
              simp at hmem
              rw [hmem]
  · have hfalse : env.personLookupOk = false := by
      revert hl
      cases env.personLookupOk <;> simp
    have hp : GSF.personPhase env.personLookupOk env.personInsertOk env.freshPersonId p.name
        (GSF.emailKey p.email) db.people = .error .personLookupFailed := by
      rw [hfalse]
      simp [GSF.personPhase]
    cases hs : GSF.resolveBadgeSlug p.badgeSlug p.courseId p.courseName with
    | none => simp [GSF.POST, hs]
    | some slug =>
      cases hb : GSF.lookupBadge db.badges slug with
      | none => simp [GSF.POST, hs, hb]
      | some badge => simp [GSF.POST, hs, hb, hp]

/-- C9 witness: replaying with a changed payload name ("Janet Doe")
leaves the stored person row "Jane Doe" untouched; the award insert set is
empty or tied to person-1. -/
theorem POST_existing_person_untouched_witness :
    GSF.replayDb.people.filter
      (fun r => r.email == GSF.emailKey "jane@x.com") = [GSF.samplePerson] ∧
    ((GSF.POST GSF.baseEnv { GSF.samplePayload with name := "Janet Doe" }
        GSF.replayDb).db.people = GSF.replayDb.people ∧
     (∀ r, GSF.Event.insertPerson r ∉ (GSF.POST GSF.baseEnv
        { GSF.samplePayload with name := "Janet Doe" } GSF.replayDb).events) ∧
     (∀ a, GSF.Event.insertAward a ∈ (GSF.POST GSF.baseEnv
        { GSF.samplePayload with name := "Janet Doe" } GSF.replayDb).events →
        a.person_id = GSF.samplePerson.id)) :=
  ⟨by decide,
    POST_existing_person_untouched GSF.baseEnv
      { GSF.samplePayload with name := "Janet Doe" } GSF.replayDb GSF.samplePerson
      (by decide)⟩

/-! ## Personalized description generation (claim C10) -/

/-- C10 counterexample: with `courseName` present but empty the
payload-supplied description still takes effect and is stored on the newly
created award, so "a payload-supplied personalizedDescription takes effect
only when courseName is absent" is false: here courseName is not absent. -/
theorem effectiveDescription_empty_courseName_counterexample :
    GSF.effectiveDescription
      { GSF.samplePayload with
        courseName := some "",
        personalizedDescription := some "Custom text" } = some "Custom text" ∧
    ({ GSF.samplePayload with
       courseName := some "",
       personalizedDescription := some "Custom text" } : GSF.Payload).courseName = some "" ∧
    GSF.Event.insertAward
        { id := "award-1", person_id := "person-1", badge_id := "badge-1",
          issued_at := some "2025-05-05T00:00:00.000Z",
          personalized_description := some "Custom text" } ∈
      (GSF.POST GSF.baseEnv
        { GSF.samplePayload with
          courseName := some "",
          personalizedDescription := some "Custom text" } GSF.freshDb).events := by
  refine ⟨by decide, by decide, by decide⟩

/-- C10 (amended): for every accepted body of either shape, a present and
non-empty `courseName` makes the generated sentence the effective
description — discarding any payload-supplied one — while a payload-
supplied description takes effect exactly when `courseName` is absent or
empty; the effective description is what a newly inserted award stores and
what the 200 body echoes. -/
theorem description_generation (env : GSF.Env) (rb : GSF.RequestBody) (db : GSF.DB) :
    (∀ cn, (GSF.extractFields rb).courseName = some cn → cn ≠ "" →
      GSF.effectiveDescription (GSF.extractFields rb) =
        some ("Recognized for successfully completing the " ++ cn ++
          " certification program.")) ∧
    ((GSF.extractFields rb).courseName = none ∨ (GSF.extractFields rb).courseName = some "" →
      GSF.effectiveDescription (GSF.extractFields rb) =
        (GSF.extractFields rb).personalizedDescription) ∧
    (∀ a, GSF.Event.insertAward a ∈ (GSF.handleBody env rb db).events →
      a.personalized_description = GSF.effectiveDescription (GSF.extractFields rb)) ∧
    (∀ b, (GSF.handleBody env rb db).response = .ok b →
      b.personalizedDescription = GSF.effectiveDescription (GSF.extractFields rb)) := by
  refine ⟨?_, ?_, (GSF.POST_description_flows env (GSF.extractFields rb) db).1,
    (GSF.POST_description_flows env (GSF.extractFields rb) db).2⟩
  · intro cn hcn hne
    unfold GSF.effectiveDescription
    rw [hcn]
    simp [hne]
  · intro hor
    unfold GSF.effectiveDescription
    rcases hor with h | h <;> rw [h]
    simp

/-- C10 witness: a direct-shape body with a non-empty course name and a
payload description resolves to the generated sentence. -/
theorem description_generation_witness :
    (GSF.extractFields (GSF.RequestBody.direct "Jane Doe" "jane@x.com" none (some "gsp")
      (some "Green Software for Practitioners") (some "ignored"))).courseName =
      some "Green Software for Practitioners" ∧
    ("Green Software for Practitioners" : String) ≠ "" ∧
    GSF.effectiveDescription (GSF.extractFields (GSF.RequestBody.direct "Jane Doe"
      "jane@x.com" none (some "gsp") (some "Green Software for Practitioners")
      (some "ignored"))) =
      some ("Recognized for successfully completing the Green Software for Practitioners" ++
        " certification program.") :=
  ⟨by decide, by decide,
    (description_generation GSF.baseEnv
      (GSF.RequestBody.direct "Jane Doe" "jane@x.com" none (some "gsp")
        (some "Green Software for Practitioners") (some "ignored")) GSF.freshDb).1
      "Green Software for Practitioners" (by decide) (by decide)⟩

/-! ## Certificate persistence (claim C8) -/

/-- C8: every successful `generateCertificateAndUpload` stores the
artifact at exactly `awards/{verificationCode}.pdf` in the certificates
bucket with unconditional overwrite (`upsert`) and no caching
(`cacheControl "0"`); two successful runs for the same verification code —
even with different recipients or dates — write the same object key and
return the same public URL. -/
theorem generateCertificateAndUpload_idempotent (env : CertificatePdf.CertEnv)
    (o1 o2 : CertificatePdf.GenerateOptions) (r1 r2 : CertificatePdf.UploadOutcome)
    (hc : o1.verificationCode = o2.verificationCode)
    (h1 : CertificatePdf.generateCertificateAndUpload env o1 = .ok r1)
    (h2 : CertificatePdf.generateCertificateAndUpload env o2 = .ok r2) :
    r1.storagePath = "awards/" ++ o1.verificationCode ++ ".pdf" ∧
    r2.storagePath = r1.storagePath ∧
    r1.publicUrl = r2.publicUrl ∧
    r1.request.path = r1.storagePath ∧
    r1.request.bucket = CertificatePdf.CERT_BUCKET ∧
    r1.request.upsert = true ∧ r1.request.cacheControl = "0" ∧
    r2.request.upsert = true ∧ r2.request.cacheControl = "0" := by
  obtain ⟨hp1, hu1, hq1, hb1, hup1, hcc1⟩ := GSF.generateCertificateAndUpload_ok_inversion h1
  obtain ⟨hp2, hu2, hq2, hb2, hup2, hcc2⟩ := GSF.generateCertificateAndUpload_ok_inversion h2
  refine ⟨hp1, ?_, ?_, hq1, hb1, hup1, hcc1, hup2, hcc2⟩
  · rw [hp1, hp2, hc]
  · rw [hu1, hu2, hc]

/-- C8 witness: regenerating for verification code "code-1" on a later
date writes the same object key with the same overwrite options and
returns the same public URL. -/
theorem generateCertificateAndUpload_idempotent_witness :
    (CertificatePdf.GenerateOptions.mk "Jane Doe" "2025-05-05" "code-1"
      "Green Software Practitioner").verificationCode =
      (CertificatePdf.GenerateOptions.mk "Janet Doe" "2025-06-06" "code-1"
        "Green Software Practitioner").verificationCode ∧
    CertificatePdf.generateCertificateAndUpload CertificatePdf.sampleCertEnv
      (CertificatePdf.GenerateOptions.mk "Jane Doe" "2025-05-05" "code-1"
        "Green Software Practitioner") = .ok CertificatePdf.sampleUpload1 ∧
    CertificatePdf.generateCertificateAndUpload CertificatePdf.sampleCertEnv
      (CertificatePdf.GenerateOptions.mk "Janet Doe" "2025-06-06" "code-1"
        "Green Software Practitioner") = .ok CertificatePdf.sampleUpload2 ∧
    (CertificatePdf.sampleUpload1.storagePath = "awards/" ++
      (CertificatePdf.GenerateOptions.mk "Jane Doe" "2025-05-05" "code-1"
        "Green Software Practitioner").verificationCode ++ ".pdf" ∧
     CertificatePdf.sampleUpload2.storagePath = CertificatePdf.sampleUpload1.storagePath ∧
     CertificatePdf.sampleUpload1.publicUrl = CertificatePdf.sampleUpload2.publicUrl ∧
     CertificatePdf.sampleUpload1.request.path = CertificatePdf.sampleUpload1.storagePath ∧
     CertificatePdf.sampleUpload1.request.bucket = CertificatePdf.CERT_BUCKET ∧
     CertificatePdf.sampleUpload1.request.upsert = true ∧
     CertificatePdf.sampleUpload1.request.cacheControl = "0" ∧
     CertificatePdf.sampleUpload2.request.upsert = true ∧
     CertificatePdf.sampleUpload2.request.cacheControl = "0") :=
  ⟨rfl, rfl, rfl,
    generateCertificateAndUpload_idempotent CertificatePdf.sampleCertEnv
      (CertificatePdf.GenerateOptions.mk "Jane Doe" "2025-05-05" "code-1"
        "Green Software Practitioner")
      (CertificatePdf.GenerateOptions.mk "Janet Doe" "2025-06-06" "code-1"
        "Green Software Practitioner")
      CertificatePdf.sampleUpload1 CertificatePdf.sampleUpload2 rfl rfl rfl⟩
